import Mathlib

/-!
Shallow embedding of the order-lifecycle supervisor of this repository
(src/executor/position_watcher.py, src/executor/order_validator.py,
src/db/repository.py, src/api/telegram_bot.py) and proofs about it.

Modelling conventions:
* prices and money amounts are rationals (Python floats in the source);
* broker and storage outcomes are explicit parameters of each embedded
  function (every `await` on an external service is a parameter);
* side effects are recorded as explicit, ordered action lists;
* the asyncio scheduling of `SLPlacementGuard` timer tasks is modelled as a
  small-step transition system whose events are the synchronous guard calls
  plus the scheduler steps that drive each timer task.
-/

namespace TBot

/-- Order kinds tracked by the watcher (enum `OrderType` in position_watcher.py). -/
inductive OrderType where
  | entry_buy
  | stop_loss
  | take_profit
  deriving DecidableEq, Repr

/-- String value of an order kind (`OrderType(...).value` in the source). -/
def OrderType.value : OrderType → String
  | .entry_buy => "entry_buy"
  | .stop_loss => "stop_loss"
  | .take_profit => "take_profit"

/-- In-memory tracked order (dataclass `TrackedOrder` in position_watcher.py). -/
structure TrackedOrder where
  order_id : String
  ticker : String
  figi : String
  order_type : OrderType
  quantity : Int
  entry_price : ℚ
  stop_price : ℚ
  target_price : ℚ
  stop_offset : ℚ := 0
  take_offset : ℚ := 0
  lot_size : Int := 1
  atr : ℚ := 0
  is_executed : Bool := false
  executed_price : Option ℚ := none
  parent_order_id : Option String := none
  sl_order_id : Option String := none
  tp_order_id : Option String := none
  created_by : Option String := none
  deriving DecidableEq, Repr

/-- Side effects emitted by the embedded functions, in program order. -/
inductive Action where
  | notify (tag : String)
  | brokerGetLastPrice (figi : String)
  | brokerPostStopOrder (figi : String) (quantity : Int) (price : ℚ)
      (direction : String) (kind : String)
  | brokerPostMarketOrder (figi : String) (quantity : Int)
  | brokerCancelStopOrder (order_id : String)
  | guardStart (entry_order_id : String)
  | guardSlPlaced (entry_order_id : String)
  | memTrack (order_id : String)
  | memUntrack (order_id : String)
  | dbSaveTracked (order_id : String)
  | dbMarkExecuted (order_id : String) (reason : String)
  | dbMarkCancelled (order_id : String)
  | dbIncrementStats
  | dbLinkSlTp (entry_order_id : String)
  | validatorRun
  | pendingStored (callback_id : String)
  | spawnConfirmTimeout (callback_id : String)
  | sleepSec (n : ℚ)
  deriving DecidableEq, Repr

/-- Whether an action is a (successful) `mark_order_executed` store write. -/
def Action.isDbMarkExecuted : Action → Bool
  | .dbMarkExecuted _ _ => true
  | _ => false

/-- Whether an action is a broker-side stop-order cancellation. -/
def Action.isBrokerCancel : Action → Bool
  | .brokerCancelStopOrder _ => true
  | _ => false

/-- Whether an action posts a stop-loss stop-order at the broker. -/
def Action.isStopLossPost : Action → Bool
  | .brokerPostStopOrder _ _ _ _ k => k == "stop_loss"
  | _ => false

/-- An action is mutating when it changes broker-side or durable state
    (spec I6 calls these the "mutating broker calls" plus store writes). -/
def Action.isMutating : Action → Bool
  | .brokerPostStopOrder _ _ _ _ _ => true
  | .brokerPostMarketOrder _ _ => true
  | .brokerCancelStopOrder _ => true
  | .dbSaveTracked _ => true
  | .dbMarkExecuted _ _ => true
  | .dbMarkCancelled _ => true
  | .dbIncrementStats => true
  | .dbLinkSlTp _ => true
  | _ => false

/-!
SLPlacementGuard (position_watcher.py lines 41-141).

The guard keeps `self._tasks : Dict[str, asyncio.Task]`, one timer task per
entry order id.  `start_watching` cancels the task currently stored under the
id (if any) and stores a fresh one; `sl_placed` pops the stored task and
cancels it.  Each timer task runs `_timeout_handler`: it sleeps, then (if the
sleep was not cancelled) invokes `on_timeout`; in both the fired and the
cancelled case its `finally` block executes `self._tasks.pop(entry_order_id,
None)` — popping by *key*, regardless of which task is currently stored there.

Events model the synchronous client calls plus the scheduler steps:
* `start_watching id` / `sl_placed id` — the guard's methods;
* `finalize_cancelled id gen` — the scheduler delivers `CancelledError` to the
  cancelled task `(id, gen)`; its `finally` pops key `id` from the dict;
* `elapse id gen` — `asyncio.sleep` of the (uncancelled) task `(id, gen)`
  completes: `on_timeout` is invoked and the `finally` pops key `id`.

Tasks are identified by a generation number `gen` assigned at creation.
-/

inductive GuardEvent where
  | start_watching (entry_order_id : String)
  | sl_placed (entry_order_id : String)
  | finalize_cancelled (entry_order_id : String) (gen : Nat)
  | elapse (entry_order_id : String) (gen : Nat)
  deriving DecidableEq, Repr

/-- State of the guard together with the state of its timer tasks. -/
structure GuardState where
  /-- the dict `self._tasks`: entry order id ↦ generation of the stored task -/
  tasks : List (String × Nat) := []
  /-- timer tasks currently suspended in `asyncio.sleep`, not cancelled -/
  sleeping : List (String × Nat) := []
  /-- tasks cancelled while sleeping whose `finally` has not yet run -/
  cancelledPending : List (String × Nat) := []
  /-- `(id, gen)` of the tasks whose `on_timeout` callback was invoked -/
  fired : List (String × Nat) := []
  /-- fresh generation counter -/
  nextGen : Nat := 0
  deriving DecidableEq, Repr

/-- Effect of `task.cancel()` on a timer task: a sleeping task moves to the
    cancelled-pending set; a task that already fired or was already cancelled
    is unaffected. -/
def cancelTask (s : GuardState) (t : String × Nat) : GuardState :=
  if t ∈ s.sleeping then
    { s with
      sleeping := s.sleeping.erase t
      cancelledPending := s.cancelledPending ++ [t] }
  else s

/-- One step of the guard / scheduler system. -/
def guardStep (s : GuardState) : GuardEvent → GuardState
  | .start_watching id =>
    -- if entry_order_id in self._tasks: self._tasks[entry_order_id].cancel()
    let s1 := match s.tasks.lookup id with
      | some g => cancelTask s (id, g)
      | none => s
    -- self._tasks[entry_order_id] = asyncio.create_task(_timeout_handler())
    { s1 with
      tasks := (id, s.nextGen) :: s1.tasks.filter (fun p => p.1 ≠ id)
      sleeping := s1.sleeping ++ [(id, s.nextGen)]
      nextGen := s.nextGen + 1 }
  | .sl_placed id =>
    -- task = self._tasks.pop(entry_order_id, None); if task: task.cancel()
    match s.tasks.lookup id with
    | some g =>
      cancelTask { s with tasks := s.tasks.filter (fun p => p.1 ≠ id) } (id, g)
    | none => s
  | .finalize_cancelled id g =>
    -- except asyncio.CancelledError: pass
    -- finally: self._tasks.pop(entry_order_id, None)
    if (id, g) ∈ s.cancelledPending then
      { s with
        cancelledPending := s.cancelledPending.erase (id, g)
        tasks := s.tasks.filter (fun p => p.1 ≠ id) }
    else s
  | .elapse id g =>
    -- await asyncio.sleep(...) returns: on_timeout is invoked, then the
    -- finally block pops key id
    if (id, g) ∈ s.sleeping then
      { s with
        sleeping := s.sleeping.erase (id, g)
        fired := s.fired ++ [(id, g)]
        tasks := s.tasks.filter (fun p => p.1 ≠ id) }
    else s

/-- Run a schedule of guard events from the initial (empty) state. -/
def guardRun (es : List GuardEvent) : GuardState :=
  es.foldl guardStep {}

/-- The schedule exhibiting the identity-unaware `finally` pop: `start` is
    re-called for entry `E` while the first timer is still running; the first
    (cancelled) task finalizes and pops the key — removing the *second*
    timer's registration; `sl_placed` then finds nothing to cancel, and the
    second timer later elapses and fires. -/
def c1Schedule : List GuardEvent :=
  [ .start_watching "E"
  , .start_watching "E"
  , .finalize_cancelled "E" 0
  , .sl_placed "E"
  , .elapse "E" 1 ]

/-!
Persistence layer (src/db/repository.py, schema from
src/alembic/versions/5a1b2c3d4e5f_add_bot_settings.py).
-/

/-- A row of the singleton `bot_settings` table (id = 1). -/
structure BotSettingsRow where
  is_active : Bool := false
  mode : String := "manual"
  deriving DecidableEq, Repr

/-- A row of the `tracked_orders` table; `order_id` carries a UNIQUE
    constraint (migration 5a1b2c3d4e5f). -/
structure TrackedRow where
  order_id : String
  ticker : String
  figi : String
  order_type : String
  quantity : Int
  lot_size : Int := 1
  entry_price : ℚ
  stop_price : ℚ
  target_price : ℚ
  stop_offset : ℚ := 0
  take_offset : ℚ := 0
  atr : ℚ := 0
  status : String := "pending"
  is_executed : Bool := false
  executed_price : Option ℚ := none
  parent_order_id : Option String := none
  sl_order_id : Option String := none
  tp_order_id : Option String := none
  pnl_rub : Option ℚ := none
  pnl_pct : Option ℚ := none
  created_by : Option String := none
  deriving DecidableEq, Repr

/-- Database errors surfaced to callers of the repository. -/
inductive DbErr where
  | uniqueViolation
  deriving DecidableEq, Repr

/-- The order ids present in the `tracked_orders` table. -/
def orderIds (db : List TrackedRow) : List String :=
  db.map (fun r => r.order_id)

/-- `Repository.save_tracked_order` (repository.py lines 258-275): builds a
    `TrackedOrderDB(**data)`, `session.add`s it and commits — a plain INSERT.
    A commit that violates the UNIQUE constraint on `order_id` raises
    (IntegrityError) and persists nothing. -/
def save_tracked_order (db : List TrackedRow) (r : TrackedRow) :
    Except DbErr (List TrackedRow) :=
  if db.any (fun q => q.order_id == r.order_id) then
    .error .uniqueViolation
  else
    .ok (db ++ [r])

/-- `Repository.is_bot_active` (repository.py lines 69-76): returns
    `settings.is_active`, and `False` when the settings read raises. -/
def is_bot_active (settingsRead : Except String BotSettingsRow) : Bool :=
  match settingsRead with
  | .ok s => s.is_active
  | .error _ => false

/-- `Repository.get_bot_mode` (repository.py lines 78-85): returns
    `settings.mode`, and `"manual"` when the settings read raises. -/
def get_bot_mode (settingsRead : Except String BotSettingsRow) : String :=
  match settingsRead with
  | .ok s => s.mode
  | .error _ => "manual"

/-- `PositionWatcher._check_bot_active` (position_watcher.py lines 241-252):
    wraps `repo.is_bot_active()`, returning `False` if even that call raises. -/
def check_bot_active (repoCall : Except String Bool) : Bool :=
  match repoCall with
  | .ok b => b
  | .error _ => false

/-- `PositionWatcher._get_bot_mode` (position_watcher.py lines 254-259):
    wraps `repo.get_bot_mode()`, returning `"manual"` on any error. -/
def watcher_get_bot_mode (repoCall : Except String String) : String :=
  match repoCall with
  | .ok m => m
  | .error _ => "manual"

/-- Keyword parameters accepted by `Repository.mark_order_executed`
    (repository.py lines 351-357): `(self, order_id, executed_price,
    pnl_rub=None, pnl_pct=None)`. -/
def mark_order_executed_params : List String :=
  ["order_id", "executed_price", "pnl_rub", "pnl_pct"]

/-- A Python call with keyword arguments raises `TypeError` before the body
    runs unless every keyword names a declared parameter. -/
def kwargsAccepted (passed accepted : List String) : Bool :=
  passed.all (fun k => accepted.contains k)

/-!
Watcher kill-switch gate and poll-loop head (position_watcher.py
lines 412-444): each iteration first runs `_check_bot_active()`; when it is
false the loop sleeps `poll_interval * 2` and `continue`s without calling
`_check_orders`.
-/

/-- One iteration head of `PositionWatcher.start`'s loop.  `settingsRead` is
    the outcome of the settings read inside `repo.is_bot_active`;
    `checkOrdersActions` are the effects `_check_orders()` would emit this
    iteration; `pollInterval` is `self.poll_interval`. -/
def watcher_loop_iteration (settingsRead : Except String BotSettingsRow)
    (pollInterval : ℚ) (checkOrdersActions : List Action) : List Action :=
  if check_bot_active (.ok (is_bot_active settingsRead)) then
    checkOrdersActions ++ [.sleepSec pollInterval]
  else
    [.sleepSec (pollInterval * 2)]

/-!
`PositionWatcher.track_order` (position_watcher.py lines 310-382).
-/

/-- Parameters of `track_order`. -/
structure TrackOrderParams where
  order_id : String
  ticker : String
  figi : String
  order_type : OrderType
  quantity : Int
  entry_price : ℚ
  stop_price : ℚ
  target_price : ℚ
  stop_offset : ℚ := 0
  take_offset : ℚ := 0
  lot_size : Int := 1
  atr : ℚ := 0
  parent_order_id : Option String := none
  created_by : Option String := none
  deriving DecidableEq, Repr

/-- The in-memory tracked order built by `track_order`. -/
def TrackOrderParams.toOrder (p : TrackOrderParams) : TrackedOrder :=
  { order_id := p.order_id
    ticker := p.ticker
    figi := p.figi
    order_type := p.order_type
    quantity := p.quantity
    entry_price := p.entry_price
    stop_price := p.stop_price
    target_price := p.target_price
    stop_offset := p.stop_offset
    take_offset := p.take_offset
    lot_size := p.lot_size
    atr := p.atr
    parent_order_id := p.parent_order_id
    created_by := p.created_by }

/-- The `tracked_orders` row built by `track_order` (status "pending"). -/
def TrackOrderParams.toRow (p : TrackOrderParams) : TrackedRow :=
  { order_id := p.order_id
    ticker := p.ticker
    figi := p.figi
    order_type := p.order_type.value
    quantity := p.quantity
    lot_size := p.lot_size
    entry_price := p.entry_price
    stop_price := p.stop_price
    target_price := p.target_price
    stop_offset := p.stop_offset
    take_offset := p.take_offset
    atr := p.atr
    status := "pending"
    parent_order_id := p.parent_order_id
    created_by := p.created_by }

/-- Python dict assignment `self._tracked_orders[order_id] = order` on the
    insertion-ordered in-memory map. -/
def memStore (mem : List (String × TrackedOrder)) (oid : String)
    (o : TrackedOrder) : List (String × TrackedOrder) :=
  if mem.any (fun p => p.1 == oid) then
    mem.map (fun p => if p.1 == oid then (oid, o) else p)
  else
    mem ++ [(oid, o)]

/-- `track_order`: refuses (no state change, no save) when
    `_check_bot_active()` is false; otherwise stores the order in memory and
    attempts the durable save, swallowing a save failure after logging.
    `activeCall` is the outcome of `repo.is_bot_active()`. -/
def track_order (activeCall : Except String Bool)
    (mem : List (String × TrackedOrder)) (db : List TrackedRow)
    (p : TrackOrderParams) :
    List (String × TrackedOrder) × List TrackedRow × List Action :=
  if !check_bot_active activeCall then
    (mem, db, [])
  else
    let mem1 := memStore mem p.order_id p.toOrder
    let db1 := match save_tracked_order db p.toRow with
      | .ok d => d
      | .error _ => db
    (mem1, db1, [.memTrack p.order_id, .dbSaveTracked p.order_id])

/-!
OrderValidator (src/executor/order_validator.py).

The MSK clock behind `is_trading_hours` and the daily-counter dictionaries are
modelled as explicit inputs (`hoursOk`, `trades_today`, `loss_today`).  Error
and warning strings are modelled as tags, one per distinct message the source
can produce.
-/

/-- Trading/risk configuration fields the validator reads
    (`config.trading.deposit_rub`, `config.trading.risk_per_trade_pct`,
    `config.risk.max_position_pct`). -/
structure TradingConfig where
  deposit_rub : ℚ
  risk_per_trade_pct : ℚ
  max_position_pct : ℚ
  deriving DecidableEq, Repr

/-- `FreeTradeConfig` (order_validator.py lines 57-81) with its defaults;
    the trading-hours strings are abstracted into the `hoursOk` input. -/
structure FreeTradeConfig where
  enabled : Bool := false
  max_price_deviation_pct : ℚ := 5
  max_concurrent_positions : Int := 3
  max_daily_trades : Int := 10
  max_daily_loss_rub : ℚ := 10000
  sl_placement_timeout_sec : Int := 10
  confirmation_timeout_sec : Int := 60
  sl_atr_multiplier : ℚ := 1
  tp_atr_multiplier : ℚ := 3
  deriving DecidableEq, Repr

/-- Reasons `validate_price` can refuse (one per message string). -/
inductive PriceReason where
  | ok
  | nonPositiveEntry
  | currentUnavailable
  | entryNotBelowCurrent
  | deviationTooLarge
  deriving DecidableEq, Repr

/-- Reasons `validate_quantity` can refuse. -/
inductive QuantityReason where
  | ok
  | nonPositiveLots
  | positionTooLarge
  deriving DecidableEq, Repr

/-- Reasons `validate_daily_limits` can refuse. -/
inductive DailyReason where
  | ok
  | tradesLimit
  | lossLimit
  deriving DecidableEq, Repr

/-- Entries of `validate_buy_order`'s collected error list (each constructor
    corresponds to one prefixed f-string appended in lines 306-352). -/
inductive VErr where
  | hours
  | positions
  | daily (r : DailyReason)
  | price (r : PriceReason)
  | quantity (r : QuantityReason)
  | slNonPositive
  deriving DecidableEq, Repr

/-- Whether an error entry came from the price check. -/
def VErr.isPriceErr : VErr → Bool
  | .price _ => true
  | _ => false

/-- Non-blocking warnings of `validate_buy_order` (lines 367-384). -/
inductive VWarn where
  | riskAboveConfigured
  | lowRiskReward
  | tpNotAboveCurrent
  deriving DecidableEq, Repr

/-- `ValidationResult` (order_validator.py lines 26-54); derived figures are
    `None` unless filled by the valid branch. -/
structure ValidationResult where
  is_valid : Bool
  errors : List VErr := []
  warnings : List VWarn := []
  sl_price : Option ℚ := none
  tp_price : Option ℚ := none
  risk_rub : Option ℚ := none
  risk_pct : Option ℚ := none
  reward_rub : Option ℚ := none
  risk_reward_ratio : Option ℚ := none
  position_value : Option ℚ := none
  deriving DecidableEq, Repr

/-- Python `round(x, digits)` on rationals: round half to even.  (On floats
    the argument may carry representation error first; the claims settled
    here do not depend on half-way cases.) -/
def pyRound (digits : Nat) (x : ℚ) : ℚ :=
  let m : ℚ := (10 : ℚ) ^ digits
  let y := x * m
  let f : ℤ := ⌊y⌋
  let n : ℤ :=
    if y - f < 1/2 then f
    else if y - f > 1/2 then f + 1
    else if f % 2 = 0 then f else f + 1
  (n : ℚ) / m

/-- Python `abs` on rationals. -/
def ratAbs (x : ℚ) : ℚ :=
  if x < 0 then -x else x

/-- `OrderValidator.validate_price` (order_validator.py lines 173-202). -/
def validate_price (ft : FreeTradeConfig) (entry_price current_price : ℚ) :
    Bool × PriceReason :=
  if entry_price ≤ 0 then (false, .nonPositiveEntry)
  else if current_price ≤ 0 then (false, .currentUnavailable)
  else if entry_price ≥ current_price then (false, .entryNotBelowCurrent)
  else if ratAbs (entry_price - current_price) / current_price * 100 >
      ft.max_price_deviation_pct then
    (false, .deviationTooLarge)
  else (true, .ok)

/-- `OrderValidator.validate_quantity` (order_validator.py lines 204-226). -/
def validate_quantity (cfg : TradingConfig) (quantity_lots : Int)
    (entry_price : ℚ) (lot_size : Int) : Bool × QuantityReason :=
  if quantity_lots ≤ 0 then (false, .nonPositiveLots)
  else
    let position_value := (quantity_lots : ℚ) * (lot_size : ℚ) * entry_price
    if position_value > cfg.deposit_rub * cfg.max_position_pct then
      (false, .positionTooLarge)
    else (true, .ok)

/-- `OrderValidator.validate_daily_limits` (order_validator.py lines 228-243). -/
def validate_daily_limits (ft : FreeTradeConfig) (trades_today : Int)
    (loss_today : ℚ) : Bool × DailyReason :=
  if trades_today ≥ ft.max_daily_trades then (false, .tradesLimit)
  else if loss_today ≥ ft.max_daily_loss_rub then (false, .lossLimit)
  else (true, .ok)

/-- `OrderValidator.calculate_sl_tp` (order_validator.py lines 245-267),
    long direction as used by `validate_buy_order`. -/
def calculate_sl_tp (ft : FreeTradeConfig) (entry_price atr : ℚ) : ℚ × ℚ :=
  (pyRound 2 (entry_price - atr * ft.sl_atr_multiplier),
   pyRound 2 (entry_price + atr * ft.tp_atr_multiplier))

/-- The error list collected by checks 1-5 of
    `OrderValidator.validate_buy_order` (order_validator.py lines 306-331),
    in source order. -/
def collected_errors (cfg : TradingConfig) (ft : FreeTradeConfig)
    (hoursOk : Bool) (trades_today : Int) (loss_today : ℚ)
    (entry_price : ℚ) (quantity_lots : Int) (current_price : ℚ)
    (lot_size : Int) (current_positions : Int) : List VErr :=
  let errs1 : List VErr := if hoursOk then [] else [.hours]
  let errs2 := errs1 ++
    (if current_positions ≥ ft.max_concurrent_positions then
      [VErr.positions] else [])
  let daily := validate_daily_limits ft trades_today loss_today
  let errs3 := errs2 ++ (if daily.1 then [] else [.daily daily.2])
  let price := validate_price ft entry_price current_price
  let errs4 := errs3 ++ (if price.1 then [] else [.price price.2])
  let qty := validate_quantity cfg quantity_lots entry_price lot_size
  errs4 ++ (if qty.1 then [] else [.quantity qty.2])

/-- `OrderValidator.validate_buy_order` (order_validator.py lines 269-406). -/
def validate_buy_order (cfg : TradingConfig) (ft : FreeTradeConfig)
    (hoursOk : Bool) (trades_today : Int) (loss_today : ℚ)
    (entry_price : ℚ) (quantity_lots : Int) (current_price atr : ℚ)
    (lot_size : Int) (current_positions : Int) : ValidationResult :=
  let errs5 := collected_errors cfg ft hoursOk trades_today loss_today
    entry_price quantity_lots current_price lot_size current_positions
  if errs5 ≠ [] then
    { is_valid := false, errors := errs5 }
  else
    let sltp := calculate_sl_tp ft entry_price atr
    let sl_price := sltp.1
    let tp_price := sltp.2
    if sl_price ≤ 0 then
      { is_valid := false, errors := [.slNonPositive] }
    else
      let quantity_shares : ℚ := (quantity_lots : ℚ) * (lot_size : ℚ)
      let position_value := quantity_shares * entry_price
      let sl_offset := entry_price - sl_price
      let tp_offset := tp_price - entry_price
      let risk_rub := sl_offset * quantity_shares
      let reward_rub := tp_offset * quantity_shares
      let risk_pct := risk_rub / cfg.deposit_rub * 100
      let rr := if risk_rub > 0 then reward_rub / risk_rub else 0
      let w1 : List VWarn :=
        if risk_pct > cfg.risk_per_trade_pct * 100 * (3 / 2 : ℚ) then
          [.riskAboveConfigured] else []
      let w2 : List VWarn := if rr < 2 then [.lowRiskReward] else []
      let w3 : List VWarn :=
        if tp_price ≤ current_price then [.tpNotAboveCurrent] else []
      { is_valid := true
        errors := []
        warnings := w1 ++ w2 ++ w3
        sl_price := some sl_price
        tp_price := some tp_price
        risk_rub := some (pyRound 0 risk_rub)
        risk_pct := some (pyRound 2 risk_pct)
        reward_rub := some (pyRound 0 reward_rub)
        risk_reward_ratio := some (pyRound 1 rr)
        position_value := some (pyRound 0 position_value) }

/-- Python `int(x)`: truncation toward zero. -/
def pyInt (x : ℚ) : ℤ :=
  if 0 ≤ x then ⌊x⌋ else -⌊-x⌋

/-- `TelegramBotAiogram._calculate_auto_lots` (telegram_bot.py lines 617-629);
    its `entry_price` parameter is unused in the source as well. -/
def calculate_auto_lots (cfg : TradingConfig) (ft : FreeTradeConfig)
    (_entry_price : ℚ) (atr : ℚ) (lot_size : Int) : Int :=
  let max_risk_rub := cfg.deposit_rub * cfg.risk_per_trade_pct
  let sl_offset := atr * ft.sl_atr_multiplier
  let risk_per_lot := sl_offset * (lot_size : ℚ)
  if risk_per_lot ≤ 0 then 1
  else max 1 (pyInt (max_risk_rub / risk_per_lot))

/-!
Watcher handlers around entry execution (position_watcher.py lines 645-1044).
Broker outcomes are parameters: `some id` is an accepted order with that id,
`none` is a raised exception at the call.
-/

/-- Combined result of a watcher handler: the in-memory tracked set, the
    durable table and the emitted effects in program order. -/
structure WatcherResult where
  mem : List (String × TrackedOrder)
  db : List TrackedRow
  actions : List Action
  deriving DecidableEq, Repr

/-- Python `del self._tracked_orders[oid]` guarded by a containment check. -/
def memDelete (mem : List (String × TrackedOrder)) (oid : String) :
    List (String × TrackedOrder) :=
  mem.filter (fun p => p.1 ≠ oid)

/-- `Repository.mark_order_cancelled` via `update_tracked_order`
    (repository.py lines 320-349, 376-381): updates the row if present. -/
def mark_order_cancelled_db (db : List TrackedRow) (oid : String) :
    List TrackedRow :=
  db.map (fun r => if r.order_id == oid then { r with status := "cancelled" }
    else r)

/-- The durable update `Repository.mark_order_executed` would perform if its
    call site passed only declared keywords. -/
def mark_order_executed_db (db : List TrackedRow) (oid : String) (price : ℚ) :
    List TrackedRow :=
  db.map (fun r => if r.order_id == oid then
    { r with status := "executed", is_executed := true,
             executed_price := some price }
    else r)

/-- `track_order` arguments for the freshly placed stop-loss
    (position_watcher.py lines 765-780). -/
def slTrackParams (t : TrackedOrder) (sid : String)
    (executed_price sl_price tp_price : ℚ) : TrackOrderParams :=
  { order_id := sid
    ticker := t.ticker
    figi := t.figi
    order_type := .stop_loss
    quantity := t.quantity
    entry_price := executed_price
    stop_price := sl_price
    target_price := tp_price
    stop_offset := t.stop_offset
    take_offset := t.take_offset
    lot_size := t.lot_size
    atr := t.atr
    parent_order_id := some t.order_id
    created_by := some "auto" }

/-- `track_order` arguments for the freshly placed take-profit
    (position_watcher.py lines 819-834). -/
def tpTrackParams (t : TrackedOrder) (tid : String)
    (executed_price sl_price tp_price : ℚ) : TrackOrderParams :=
  { order_id := tid
    ticker := t.ticker
    figi := t.figi
    order_type := .take_profit
    quantity := t.quantity
    entry_price := executed_price
    stop_price := sl_price
    target_price := tp_price
    stop_offset := t.stop_offset
    take_offset := t.take_offset
    lot_size := t.lot_size
    atr := t.atr
    parent_order_id := some t.order_id
    created_by := some "auto" }

/-- `PositionWatcher._place_sl_tp` (position_watcher.py lines 713-870).
    On SL acceptance the source cancels the guard (`sl_guard.sl_placed`,
    line 755) and only then tracks and durably saves the SL row (lines
    765-780); on SL failure the guard keeps ticking.  The TP is attempted
    regardless; siblings are linked if any id is known; the entry is dropped
    from the tracked set only when the SL succeeded. -/
def place_sl_tp (activeCall : Except String Bool)
    (mem : List (String × TrackedOrder)) (db : List TrackedRow)
    (t : TrackedOrder) (executed_price sl_price tp_price : ℚ)
    (slResult tpResult : Option String) : WatcherResult :=
  let slPost := Action.brokerPostStopOrder t.figi t.quantity sl_price
    "sell" "stop_loss"
  -- stop-loss attempt
  let slStep : TrackedOrder × Bool × WatcherResult :=
    match slResult with
    | some sid =>
      let tr := track_order activeCall mem db
        (slTrackParams t sid executed_price sl_price tp_price)
      ( { t with sl_order_id := some sid }, true,
        ⟨tr.1, tr.2.1,
          [slPost, .guardSlPlaced t.order_id] ++ tr.2.2 ++
            [.dbIncrementStats]⟩ )
    | none =>
      (t, false, ⟨mem, db, [slPost, .notify "sl_not_placed_critical"]⟩)
  let t1 := slStep.1
  let sl_success := slStep.2.1
  let r1 := slStep.2.2
  -- take-profit attempt
  let tpPost := Action.brokerPostStopOrder t.figi t.quantity tp_price
    "sell" "take_profit"
  let tpStep : TrackedOrder × WatcherResult :=
    match tpResult with
    | some tid =>
      let tr := track_order activeCall r1.mem r1.db
        (tpTrackParams t tid executed_price sl_price tp_price)
      ( { t1 with tp_order_id := some tid },
        ⟨tr.1, tr.2.1,
          r1.actions ++ [tpPost] ++ tr.2.2 ++ [.dbIncrementStats]⟩ )
    | none =>
      (t1, ⟨r1.mem, r1.db, r1.actions ++ [tpPost, .notify "tp_not_placed"]⟩)
  let t2 := tpStep.1
  let r2 := tpStep.2
  -- link siblings in the db if any id is known
  let r3 : WatcherResult :=
    if t2.sl_order_id.isSome || t2.tp_order_id.isSome then
      ⟨r2.mem, r2.db, r2.actions ++ [.dbLinkSlTp t.order_id]⟩
    else r2
  -- final notification, only when the SL was placed
  let r4 : WatcherResult :=
    if sl_success then
      ⟨r3.mem, r3.db, r3.actions ++
        [.notify (if tpResult.isSome then "sl_tp_placed" else "sl_only_placed")]⟩
    else r3
  -- drop the entry from the tracked set when the SL was placed
  if sl_success then ⟨memDelete r4.mem t.order_id, r4.db, r4.actions⟩ else r4

/-- `PositionWatcher._on_entry_executed` (position_watcher.py lines 645-707):
    notifies about the fill; outside auto mode it only drops the entry;
    in auto mode it starts the guard and immediately attempts SL/TP
    placement — with no lookup for an already-tracked stop-loss of this
    entry. -/
def on_entry_executed (modeCall : Except String String)
    (activeCall : Except String Bool)
    (mem : List (String × TrackedOrder)) (db : List TrackedRow)
    (t : TrackedOrder) (executed_price : ℚ)
    (slResult tpResult : Option String) : WatcherResult :=
  let mode := watcher_get_bot_mode modeCall
  let sl_price := executed_price - t.stop_offset
  let tp_price := executed_price + t.take_offset
  let opened := Action.notify "position_opened"
  if mode ≠ "auto" then
    ⟨memDelete mem t.order_id, db, [opened, .notify "manual_mode_no_sl_tp"]⟩
  else
    let r := place_sl_tp activeCall mem db t executed_price sl_price tp_price
      slResult tpResult
    ⟨r.mem, r.db, [opened, .guardStart t.order_id] ++ r.actions⟩

/-- The opposite kind targeted by `_cancel_related_order`
    (position_watcher.py line 1012). -/
def related_target_type (order_type : String) : OrderType :=
  if order_type == "tp" then OrderType.take_profit else OrderType.stop_loss

/-- The sibling lookup of `PositionWatcher._cancel_related_order`
    (position_watcher.py lines 1012-1020): first tracked order, in insertion
    order, with the same ticker, the opposite kind and `is_executed` false. -/
def related_order_lookup (mem : List (String × TrackedOrder))
    (t : TrackedOrder) (order_type : String) : Option String :=
  (mem.find? (fun p =>
    p.2.ticker == t.ticker &&
      p.2.order_type == related_target_type order_type &&
      !p.2.is_executed)).map (fun p => p.1)

/-- `PositionWatcher._cancel_related_order` (position_watcher.py lines
    1008-1044): looks the sibling up, cancels it at the broker and untracks
    it; a broker failure leaves the state untouched. -/
def cancel_related_order (cancelOk : Bool)
    (mem : List (String × TrackedOrder)) (db : List TrackedRow)
    (t : TrackedOrder) (order_type : String) : WatcherResult :=
  match related_order_lookup mem t order_type with
  | none => ⟨mem, db, []⟩
  | some rid =>
    if cancelOk then
      ⟨memDelete mem rid, mark_order_cancelled_db db rid,
        [.brokerCancelStopOrder rid, .memUntrack rid, .dbMarkCancelled rid,
          .notify "related_cancelled"]⟩
    else
      ⟨mem, db, [.brokerCancelStopOrder rid]⟩

/-- `PositionWatcher._emergency_close_position` (position_watcher.py lines
    876-966).  `marketResult` is the outcome of the market sell.  When it
    succeeds the source then calls `repo.mark_order_executed(...,
    execution_reason="emergency_close")`; `Repository.mark_order_executed`
    declares no `execution_reason` parameter, so the call raises `TypeError`
    before touching the row and control jumps to the `except` block, which
    emits the manual-intervention alert.  The cleanup after the try block
    removes the entry and any remembered TP id from the in-memory set only —
    no broker-side cancel of the TP is issued. -/
def emergency_close_position (marketResult : Option String)
    (mem : List (String × TrackedOrder)) (db : List TrackedRow)
    (t : TrackedOrder) (executed_price : ℚ) : WatcherResult :=
  let alert := Action.notify "emergency_close_alert"
  let tryStep : List Action × List TrackedRow :=
    match marketResult with
    | some _ =>
      if kwargsAccepted ["executed_price", "execution_reason"]
          mark_order_executed_params then
        ([.brokerPostMarketOrder t.figi t.quantity,
          .notify "position_closed_market",
          .dbMarkExecuted t.order_id "emergency_close"],
         mark_order_executed_db db t.order_id executed_price)
      else
        ([.brokerPostMarketOrder t.figi t.quantity,
          .notify "position_closed_market",
          .notify "close_failed_manual_intervention"], db)
    | none =>
      ([.brokerPostMarketOrder t.figi t.quantity,
        .notify "close_failed_manual_intervention"], db)
  let mem1 := memDelete mem t.order_id
  let mem2 := match t.tp_order_id with
    | some tid => memDelete mem1 tid
    | none => mem1
  ⟨mem2, tryStep.2, [alert] ++ tryStep.1⟩

/-!
Telegram buy path (src/api/telegram_bot.py): `cmd_buy` (lines 420-472),
`_handle_free_trading_buy` (lines 631-733) and `_place_order_legacy`
(lines 803-874).  The bot-settings row is part of the environment so that
theorems can speak about the kill switch; the source consults it nowhere on
this path.
-/

/-- Entry of the `SHARES_CACHE` per-ticker snapshot consumed by `/buy`. -/
structure ShareData where
  figi : String
  lot_size : Int := 1
  atr : ℚ := 0
  entry_price : Option ℚ := none
  position_size : Int := 0
  stop_price : ℚ := 0
  take_price : ℚ := 0
  stop_offset : ℚ := 0
  take_offset : ℚ := 0
  deriving DecidableEq, Repr

/-- `PendingOrder` (telegram_bot.py lines 99-115). -/
structure PendingOrder where
  ticker : String
  figi : String
  entry_price : ℚ
  quantity_lots : Int
  lot_size : Int
  atr : ℚ
  sl_price : Option ℚ
  tp_price : Option ℚ
  risk_rub : Option ℚ
  risk_pct : Option ℚ
  reward_rub : Option ℚ
  position_value : Option ℚ
  created_at : Int
  user_id : Int
  deriving DecidableEq, Repr

/-- External inputs of one `/buy` command. -/
structure BuyEnv where
  /-- `self._is_authorized(message.from_user.id)` -/
  authorized : Bool
  /-- `_parse_buy_command`: ticker, optional price, optional lots -/
  parsed : Except String (String × Option ℚ × Option Int)
  /-- `SHARES_CACHE` -/
  cache : List (String × ShareData)
  /-- `config.free_trading.enabled` -/
  free_trading_enabled : Bool
  /-- whether `self._validator` was initialised -/
  validator_ready : Bool
  /-- broker answer inside `_get_current_price` (`None` on error) -/
  last_price : Option ℚ
  /-- `is_trading_hours()` outcome at this MSK instant -/
  hoursOk : Bool
  trades_today : Int
  loss_today : ℚ
  /-- the watcher's tracked set, for `_count_current_positions` -/
  tracked : List (String × TrackedOrder)
  /-- `_generate_callback_id` output -/
  callback_id : String
  now : Int
  user_id : Int
  /-- the durable `bot_settings` row (never read by this path) -/
  settings : BotSettingsRow
  cfg : TradingConfig
  ft : FreeTradeConfig
  /-- `config.dry_run` -/
  dry_run : Bool
  /-- broker outcome of `place_take_profit_buy` in the legacy path -/
  legacyPlace : Option String
  /-- `repo.is_bot_active()` outcome, consulted only inside `track_order` -/
  activeCall : Except String Bool
  deriving Repr

/-- Result of one `/buy` command: effects, the pending-confirmation map, the
    watcher's in-memory set and the durable table. -/
structure BuyResult where
  actions : List Action
  pending : List (String × PendingOrder)
  mem : List (String × TrackedOrder)
  db : List TrackedRow
  deriving DecidableEq, Repr

/-- `TelegramBotAiogram._count_current_positions` (telegram_bot.py lines
    609-615). -/
def count_current_positions (tracked : List (String × TrackedOrder)) : Int :=
  ((tracked.filter (fun p =>
    p.2.order_type.value == "entry_buy" && !p.2.is_executed)).length : Int)

/-- `TelegramBotAiogram._handle_free_trading_buy` (telegram_bot.py lines
    631-733): current price from the broker, auto lots if needed, validation,
    then a pending confirmation stored under the callback id. -/
def handle_free_trading_buy (env : BuyEnv) (ticker : String)
    (entry_price : ℚ) (lots : Option Int) (share : ShareData)
    (pending0 : List (String × PendingOrder))
    (mem : List (String × TrackedOrder)) (db : List TrackedRow) : BuyResult :=
  if !env.validator_ready then
    ⟨[.notify "ft_not_initialized"], pending0, mem, db⟩
  else if share.atr ≤ 0 then
    ⟨[.notify "atr_missing"], pending0, mem, db⟩
  else
    let priceActions := [Action.brokerGetLastPrice share.figi]
    match env.last_price with
    | none => ⟨priceActions ++ [.notify "price_unavailable"], pending0, mem, db⟩
    | some current_price =>
      -- `if not current_price` also treats 0.0 as missing
      if current_price == 0 then
        ⟨priceActions ++ [.notify "price_unavailable"], pending0, mem, db⟩
      else
        let lotsFinal := match lots with
          | some l => l
          | none =>
            calculate_auto_lots env.cfg env.ft entry_price share.atr
              share.lot_size
        let current_positions := count_current_positions env.tracked
        let validation := validate_buy_order env.cfg env.ft env.hoursOk
          env.trades_today env.loss_today entry_price lotsFinal current_price
          share.atr share.lot_size current_positions
        let vActions := priceActions ++ [Action.validatorRun]
        if !validation.is_valid then
          ⟨vActions ++ [.notify "order_rejected"], pending0, mem, db⟩
        else
          let p : PendingOrder :=
            { ticker := ticker
              figi := share.figi
              entry_price := entry_price
              quantity_lots := lotsFinal
              lot_size := share.lot_size
              atr := share.atr
              sl_price := validation.sl_price
              tp_price := validation.tp_price
              risk_rub := validation.risk_rub
              risk_pct := validation.risk_pct
              reward_rub := validation.reward_rub
              position_value := validation.position_value
              created_at := env.now
              user_id := env.user_id }
          ⟨vActions ++
            [.pendingStored env.callback_id, .notify "confirm_request",
              .spawnConfirmTimeout env.callback_id],
            pending0 ++ [(env.callback_id, p)], mem, db⟩

/-- `TelegramBotAiogram._place_order_legacy` (telegram_bot.py lines 803-874)
    together with `OrderManager.place_take_profit_buy` (order_manager.py):
    quantity from the snapshot, dry-run short-circuit, otherwise a BUY
    stop-order at the snapshot's entry price followed by `track_order`. -/
def place_order_legacy (env : BuyEnv) (ticker : String) (share : ShareData)
    (pending0 : List (String × PendingOrder))
    (mem : List (String × TrackedOrder)) (db : List TrackedRow) : BuyResult :=
  let quantity_lots := share.position_size.fdiv share.lot_size
  if quantity_lots ≤ 0 then
    ⟨[.notify "position_too_small"], pending0, mem, db⟩
  else
    let price := share.entry_price.getD 0
    if env.dry_run then
      ⟨[.notify "dry_run"], pending0, mem, db⟩
    else
      let post := Action.brokerPostStopOrder share.figi quantity_lots price
        "buy" "take_profit"
      match env.legacyPlace with
      | some oid =>
        let tr := track_order env.activeCall mem db
          { order_id := oid
            ticker := ticker, figi := share.figi
            order_type := .entry_buy
            quantity := quantity_lots
            entry_price := price
            stop_price := share.stop_price
            target_price := share.take_price
            stop_offset := share.stop_offset
            take_offset := share.take_offset
            lot_size := share.lot_size
            atr := share.atr }
        ⟨[post] ++ tr.2.2 ++ [.notify "order_placed"], pending0, tr.1, tr.2.1⟩
      | none =>
        ⟨[post, .notify "order_error"], pending0, mem, db⟩

/-- `cmd_buy` (telegram_bot.py lines 420-472): authorisation, parsing, cache
    lookup, price selection, then either the free-trading confirmation flow
    or the legacy immediate placement.  No kill-switch consultation appears
    anywhere on this path. -/
def cmd_buy (env : BuyEnv) (pending0 : List (String × PendingOrder))
    (mem : List (String × TrackedOrder)) (db : List TrackedRow) : BuyResult :=
  if !env.authorized then ⟨[.notify "no_access"], pending0, mem, db⟩
  else
    match env.parsed with
    | .error _ => ⟨[.notify "format_error"], pending0, mem, db⟩
    | .ok (ticker, priceArg, lotsArg) =>
      match env.cache.lookup ticker with
      | none => ⟨[.notify "ticker_not_in_cache"], pending0, mem, db⟩
      | some share =>
        let entryOpt : Option ℚ := match priceArg with
          | none =>
            match share.entry_price with
            | none => none
            | some e => if e == 0 then none else some e
          | some pr => some pr
        match entryOpt with
        | none => ⟨[.notify "no_entry_price"], pending0, mem, db⟩
        | some entry_price =>
          if env.free_trading_enabled && priceArg.isSome then
            handle_free_trading_buy env ticker entry_price lotsArg share
              pending0 mem db
          else
            place_order_legacy env ticker share pending0 mem db

/-!
Concrete inputs used by counterexamples, code-bug evaluations and witnesses.
-/

/-- A `/buy SBER 250 10` command arriving while the kill switch is off
    (`is_active = false`), with SBER in the snapshot cache and a live price
    of 252. -/
def c2Share : ShareData :=
  { figi := "F1", lot_size := 10, atr := 5, entry_price := some 250,
    position_size := 100 }

/-- Default free-trading limits and a 100 000 ₽ deposit with 1 % risk and a
    30 % position cap. -/
def c2Cfg : TradingConfig :=
  { deposit_rub := 100000, risk_per_trade_pct := 1 / 100,
    max_position_pct := 3 / 10 }

/-- Environment of the C2 scenario: authorised caller, valid arguments, free
    trading on, broker price available, bot NOT active. -/
def c2Env : BuyEnv :=
  { authorized := true
    parsed := .ok ("SBER", some 250, some 10)
    cache := [("SBER", c2Share)]
    free_trading_enabled := true
    validator_ready := true
    last_price := some 252
    hoursOk := true
    trades_today := 0
    loss_today := 0
    tracked := []
    callback_id := "cb1"
    now := 0
    user_id := 7
    settings := { is_active := false, mode := "manual" }
    cfg := c2Cfg
    ft := {}
    dry_run := false
    legacyPlace := none
    activeCall := .ok false }

/-- The same environment with the bot active, for the independence check. -/
def c2EnvActive : BuyEnv :=
  { c2Env with settings := { is_active := true, mode := "manual" },
               activeCall := .ok true }

/-- The pending confirmation the C2 scenario leaves behind: the derived
    figures of the valid validation (SL 245, TP 265, risk 500 ₽, reward
    1500 ₽). -/
def c2Pending : PendingOrder :=
  { ticker := "SBER", figi := "F1", entry_price := 250, quantity_lots := 10,
    lot_size := 10, atr := 5, sl_price := some 245, tp_price := some 265,
    risk_rub := some 500, risk_pct := some (1 / 2), reward_rub := some 1500,
    position_value := some 25000, created_at := 0, user_id := 7 }

/-- An entry order whose fill triggers SL/TP placement. -/
def c3Entry : TrackedOrder :=
  { order_id := "E1", ticker := "SBER", figi := "F1",
    order_type := .entry_buy, quantity := 10, entry_price := 250,
    stop_price := 245, target_price := 265, stop_offset := 5,
    take_offset := 15, lot_size := 10, atr := 5 }

/-- Effects of `_place_sl_tp` for the C3 scenario: bot active, broker accepts
    the SL as "S1" and the TP as "T1". -/
def c3Actions : List Action :=
  (place_sl_tp (.ok true) [("E1", c3Entry)] [] c3Entry 250 245 265
    (some "S1") (some "T1")).actions

/-- Restart-recovery entry E2 (spec scenario S4). -/
def c4Entry : TrackedOrder :=
  { order_id := "E2", ticker := "GAZP", figi := "F2",
    order_type := .entry_buy, quantity := 1, entry_price := 300,
    stop_price := 295, target_price := 315, stop_offset := 5,
    take_offset := 15 }

/-- The stop-loss S2 already tracked for E2, re-hydrated from the store. -/
def c4Sl : TrackedOrder :=
  { order_id := "S2", ticker := "GAZP", figi := "F2",
    order_type := .stop_loss, quantity := 1, entry_price := 300,
    stop_price := 295, target_price := 315,
    parent_order_id := some "E2", created_by := some "auto" }

/-- Tracked set after recovery: the pending entry and its existing SL. -/
def c4Mem : List (String × TrackedOrder) :=
  [("E2", c4Entry), ("S2", c4Sl)]

/-- Handling of E2's fill in auto mode on the recovered state. -/
def c4Result : WatcherResult :=
  on_entry_executed (.ok "auto") (.ok true) c4Mem [] c4Entry 300
    (some "S2b") (some "T2")

/-- Take-profit of an older position P1 on the same ticker. -/
def c5Tp1 : TrackedOrder :=
  { order_id := "T1", ticker := "LKOH", figi := "F5",
    order_type := .take_profit, quantity := 1, entry_price := 6000,
    stop_price := 5900, target_price := 6300,
    parent_order_id := some "P1" }

/-- Take-profit of the newer position P2 on the same ticker. -/
def c5Tp2 : TrackedOrder :=
  { order_id := "T2", ticker := "LKOH", figi := "F5",
    order_type := .take_profit, quantity := 1, entry_price := 6100,
    stop_price := 6000, target_price := 6400,
    parent_order_id := some "P2" }

/-- The stop-loss of position P2 that has just executed. -/
def c5Sl : TrackedOrder :=
  { order_id := "S9", ticker := "LKOH", figi := "F5",
    order_type := .stop_loss, quantity := 1, entry_price := 6100,
    stop_price := 6000, target_price := 6400,
    parent_order_id := some "P2", is_executed := true }

/-- Tracked set with both take-profits, insertion order T1 then T2. -/
def c5Mem : List (String × TrackedOrder) :=
  [("T1", c5Tp1), ("T2", c5Tp2)]

/-- Entry whose SL placement failed; a TP "T3" was placed before the guard
    fired. -/
def c6Entry : TrackedOrder :=
  { order_id := "E3", ticker := "ROSN", figi := "F3",
    order_type := .entry_buy, quantity := 2, entry_price := 500,
    stop_price := 490, target_price := 530, tp_order_id := some "T3" }

/-- The already-placed take-profit of E3. -/
def c6Tp : TrackedOrder :=
  { order_id := "T3", ticker := "ROSN", figi := "F3",
    order_type := .take_profit, quantity := 2, entry_price := 500,
    stop_price := 490, target_price := 530,
    parent_order_id := some "E3" }

/-- Durable row of entry E3, still pending. -/
def c6Row : TrackedRow :=
  { order_id := "E3", ticker := "ROSN", figi := "F3",
    order_type := "entry_buy", quantity := 2, entry_price := 500,
    stop_price := 490, target_price := 530 }

/-- Emergency close of E3 with a SUCCESSFUL market sell ("M1"). -/
def c6Result : WatcherResult :=
  emergency_close_position (some "M1") [("E3", c6Entry), ("T3", c6Tp)]
    [c6Row] c6Entry 500

/-- A tracked-orders row used by the C9 save/upsert scenario. -/
def c9Row : TrackedRow :=
  { order_id := "X1", ticker := "SBER", figi := "F1",
    order_type := "entry_buy", quantity := 1, entry_price := 100,
    stop_price := 95, target_price := 115 }

/-- A second distinct row for the C9 witness. -/
def c9RowB : TrackedRow :=
  { order_id := "X2", ticker := "GAZP", figi := "F2",
    order_type := "entry_buy", quantity := 1, entry_price := 200,
    stop_price := 195, target_price := 215 }

/-- Configuration used by the C8 witness. -/
def c8Cfg : TradingConfig :=
  { deposit_rub := 100000, risk_per_trade_pct := 1 / 100,
    max_position_pct := 3 / 10 }

/-- A durable row already present in the C10 scenario. -/
def c10Row : TrackedRow :=
  { order_id := "E10", ticker := "SBER", figi := "F1",
    order_type := "entry_buy", quantity := 1, entry_price := 250,
    stop_price := 245, target_price := 265 }

/-- A broker-accepted stop-loss handed to `track_order` while the bot is
    inactive (C10 scenario). -/
def c10Params : TrackOrderParams :=
  { order_id := "S10", ticker := "SBER", figi := "F1",
    order_type := .stop_loss, quantity := 1, entry_price := 250,
    stop_price := 245, target_price := 265,
    parent_order_id := some "E10", created_by := some "auto" }

/-- An unrelated tracked order already in memory in the C10 scenario. -/
def c10Order : TrackedOrder :=
  { order_id := "E10", ticker := "SBER", figi := "F1",
    order_type := .entry_buy, quantity := 1, entry_price := 250,
    stop_price := 245, target_price := 265 }

/-- Helper: under any of the four bad price conditions the price check
    refuses. -/
theorem validate_price_fails_of_bounds (ft : FreeTradeConfig) (e c : ℚ)
    (h : e ≥ c ∨ e ≤ 0 ∨ c ≤ 0 ∨
      ratAbs (e - c) / c * 100 > ft.max_price_deviation_pct) :
    (validate_price ft e c).1 = false := by
  unfold validate_price
  split_ifs with h1 h2 h3 h4
  · rfl
  · rfl
  · rfl
  · rfl
  · exfalso
    rcases h with h | h | h | h
    · exact h3 h
    · exact h1 h
    · exact h2 h
    · exact h4 h

/-- Helper: a failing price check contributes a price error to the
    collected list. -/
theorem price_err_mem_collected (cfg : TradingConfig) (ft : FreeTradeConfig)
    (hoursOk : Bool) (td : Int) (ld : ℚ) (e : ℚ) (q : Int) (c : ℚ)
    (ls pos : Int) (hp : (validate_price ft e c).1 = false) :
    VErr.price (validate_price ft e c).2 ∈
      collected_errors cfg ft hoursOk td ld e q c ls pos := by
  simp [collected_errors, hp]

/-- Helper: with a nonempty error list the validator stops at check 5. -/
theorem validate_buy_order_of_errors (cfg : TradingConfig)
    (ft : FreeTradeConfig) (hoursOk : Bool) (td : Int) (ld : ℚ) (e : ℚ)
    (q : Int) (c a : ℚ) (ls pos : Int)
    (h : collected_errors cfg ft hoursOk td ld e q c ls pos ≠ []) :
    validate_buy_order cfg ft hoursOk td ld e q c a ls pos =
      { is_valid := false,
        errors := collected_errors cfg ft hoursOk td ld e q c ls pos } := by
  unfold validate_buy_order
  rw [if_pos h]

/-- Helper: an invalid validation result carries no derived figures. -/
theorem validate_buy_order_invalid_no_figures (cfg : TradingConfig)
    (ft : FreeTradeConfig) (hoursOk : Bool) (td : Int) (ld : ℚ) (e : ℚ)
    (q : Int) (c a : ℚ) (ls pos : Int)
    (h : (validate_buy_order cfg ft hoursOk td ld e q c a ls pos).is_valid
      = false) :
    (validate_buy_order cfg ft hoursOk td ld e q c a ls pos).sl_price = none ∧
    (validate_buy_order cfg ft hoursOk td ld e q c a ls pos).tp_price = none ∧
    (validate_buy_order cfg ft hoursOk td ld e q c a ls pos).risk_rub = none ∧
    (validate_buy_order cfg ft hoursOk td ld e q c a ls pos).reward_rub
      = none := by
  simp only [validate_buy_order] at h ⊢
  split_ifs at h ⊢ <;> simp_all

/-- C8: if `entry_price ≥ current_price`, or `entry_price ≤ 0`, or
    `current_price ≤ 0`, or the percentage deviation exceeds
    `max_price_deviation_pct`, then `validate_buy_order` returns an invalid
    result containing a price error; and every invalid result carries no
    derived figures. -/
theorem validator_price_bounds (cfg : TradingConfig) (ft : FreeTradeConfig)
    (hoursOk : Bool) (td : Int) (ld : ℚ) (e : ℚ) (q : Int) (c a : ℚ)
    (ls pos : Int)
    (h : e ≥ c ∨ e ≤ 0 ∨ c ≤ 0 ∨
      ratAbs (e - c) / c * 100 > ft.max_price_deviation_pct) :
    (validate_buy_order cfg ft hoursOk td ld e q c a ls pos).is_valid
      = false ∧
    (∃ er ∈ (validate_buy_order cfg ft hoursOk td ld e q c a ls pos).errors,
      er.isPriceErr = true) ∧
    (∀ (cfg2 : TradingConfig) (ft2 : FreeTradeConfig) (h2 : Bool) (t2 : Int)
        (l2 : ℚ) (e2 : ℚ) (q2 : Int) (c2 a2 : ℚ) (ls2 p2 : Int),
      (validate_buy_order cfg2 ft2 h2 t2 l2 e2 q2 c2 a2 ls2 p2).is_valid
        = false →
      (validate_buy_order cfg2 ft2 h2 t2 l2 e2 q2 c2 a2 ls2 p2).sl_price
        = none ∧
      (validate_buy_order cfg2 ft2 h2 t2 l2 e2 q2 c2 a2 ls2 p2).tp_price
        = none ∧
      (validate_buy_order cfg2 ft2 h2 t2 l2 e2 q2 c2 a2 ls2 p2).risk_rub
        = none ∧
      (validate_buy_order cfg2 ft2 h2 t2 l2 e2 q2 c2 a2 ls2 p2).reward_rub
        = none) := by
  have hp := validate_price_fails_of_bounds ft e c h
  have hmem := price_err_mem_collected cfg ft hoursOk td ld e q c ls pos hp
  have hne := List.ne_nil_of_mem hmem
  have heq := validate_buy_order_of_errors cfg ft hoursOk td ld e q c a
    ls pos hne
  refine ⟨by rw [heq], ⟨VErr.price (validate_price ft e c).2, ?_, rfl⟩, ?_⟩
  · rw [heq]
    exact hmem
  · intro cfg2 ft2 h2 t2 l2 e2 q2 c2 a2 ls2 p2 hinv
    exact validate_buy_order_invalid_no_figures cfg2 ft2 h2 t2 l2 e2 q2 c2
      a2 ls2 p2 hinv

/-- C8 witness: entry 252 against current price 250 (entry ≥ current) is
    refused with a price error and no derived figures. -/
theorem validator_price_bounds_witness :
    ((252 : ℚ) ≥ 250 ∨ (252 : ℚ) ≤ 0 ∨ (250 : ℚ) ≤ 0 ∨
      ratAbs ((252 : ℚ) - 250) / 250 * 100 >
        FreeTradeConfig.max_price_deviation_pct {}) ∧
    ((validate_buy_order c8Cfg {} true 0 0 252 10 250 5 10 0).is_valid
        = false ∧
      (∃ er ∈ (validate_buy_order c8Cfg {} true 0 0 252 10 250 5 10 0).errors,
        er.isPriceErr = true) ∧
      (∀ (cfg2 : TradingConfig) (ft2 : FreeTradeConfig) (h2 : Bool) (t2 : Int)
          (l2 : ℚ) (e2 : ℚ) (q2 : Int) (c2 a2 : ℚ) (ls2 p2 : Int),
        (validate_buy_order cfg2 ft2 h2 t2 l2 e2 q2 c2 a2 ls2 p2).is_valid
          = false →
        (validate_buy_order cfg2 ft2 h2 t2 l2 e2 q2 c2 a2 ls2 p2).sl_price
          = none ∧
        (validate_buy_order cfg2 ft2 h2 t2 l2 e2 q2 c2 a2 ls2 p2).tp_price
          = none ∧
        (validate_buy_order cfg2 ft2 h2 t2 l2 e2 q2 c2 a2 ls2 p2).risk_rub
          = none ∧
        (validate_buy_order cfg2 ft2 h2 t2 l2 e2 q2 c2 a2 ls2 p2).reward_rub
          = none)) :=
  ⟨Or.inl (by norm_num),
   validator_price_bounds c8Cfg {} true 0 0 252 10 250 5 10 0
     (Or.inl (by norm_num))⟩

/-- C3 amended: when the broker accepts the SL, `_place_sl_tp` cancels the
    guard immediately after the broker call — its first two effects are the
    SL post and the guard cancellation — and the durable save of the SL row
    comes only later. -/
theorem place_sl_tp_guard_cancel_precedes_save
    (activeCall : Except String Bool)
    (mem : List (String × TrackedOrder)) (db : List TrackedRow)
    (t : TrackedOrder) (ep slp tpp : ℚ) (sid : String)
    (tpRes : Option String)
    (hactive : check_bot_active activeCall = true) :
    (place_sl_tp activeCall mem db t ep slp tpp (some sid) tpRes).actions.take
        2 =
      [.brokerPostStopOrder t.figi t.quantity slp "sell" "stop_loss",
       .guardSlPlaced t.order_id] ∧
    Action.dbSaveTracked sid ∈
      (place_sl_tp activeCall mem db t ep slp tpp (some sid)
        tpRes).actions.drop 2 := by
  cases tpRes <;>
    simp [place_sl_tp, track_order, hactive, slTrackParams, tpTrackParams]

/-- C3 witness for the amended ordering at the concrete C3 input. -/
theorem place_sl_tp_guard_cancel_precedes_save_witness :
    check_bot_active (.ok true) = true ∧
    ((place_sl_tp (.ok true) [("E1", c3Entry)] [] c3Entry 250 245 265
        (some "S1") (some "T1")).actions.take 2 =
      [.brokerPostStopOrder c3Entry.figi c3Entry.quantity 245 "sell"
        "stop_loss", .guardSlPlaced c3Entry.order_id] ∧
    Action.dbSaveTracked "S1" ∈
      (place_sl_tp (.ok true) [("E1", c3Entry)] [] c3Entry 250 245 265
        (some "S1") (some "T1")).actions.drop 2) :=
  ⟨rfl, place_sl_tp_guard_cancel_precedes_save (.ok true) [("E1", c3Entry)]
    [] c3Entry 250 245 265 "S1" (some "T1") rfl⟩

/-- C5 amended, part of the lookup characterisation: a found sibling has the
    same ticker, the opposite kind and `is_executed = false`, and the result
    is unchanged under arbitrary rewriting of every `parent_order_id` — the
    lookup never consults the parent linkage. -/
theorem related_order_lookup_spec (mem : List (String × TrackedOrder))
    (t : TrackedOrder) (ot : String) (oid : String)
    (h : related_order_lookup mem t ot = some oid) :
    (∃ o, (oid, o) ∈ mem ∧ o.ticker = t.ticker ∧
      o.order_type = related_target_type ot ∧
      o.is_executed = false) ∧
    (∀ f : String × TrackedOrder → Option String,
      related_order_lookup
        (mem.map fun p => (p.1, { p.2 with parent_order_id := f p })) t ot =
        some oid) := by
  constructor
  · unfold related_order_lookup at h
    rw [Option.map_eq_some'] at h
    obtain ⟨q, hfind, hfst⟩ := h
    have hq := List.find?_some hfind
    have hm := List.mem_of_find?_eq_some hfind
    simp only [Bool.and_eq_true, beq_iff_eq, Bool.not_eq_true'] at hq
    exact ⟨q.2, by rw [← hfst]; exact hm, hq.1.1, hq.1.2, hq.2⟩
  · intro f
    unfold related_order_lookup at h ⊢
    rw [List.find?_map, Option.map_map]
    exact h

/-- C5 witness: at the C5 state the lookup returns T1, which indeed matches
    ticker, kind and liveness, and rewriting all parents leaves the result
    unchanged. -/
theorem related_order_lookup_spec_witness :
    related_order_lookup c5Mem c5Sl "tp" = some "T1" ∧
    ((∃ o, ("T1", o) ∈ c5Mem ∧ o.ticker = c5Sl.ticker ∧
      o.order_type = related_target_type "tp" ∧
      o.is_executed = false) ∧
    (∀ f : String × TrackedOrder → Option String,
      related_order_lookup
        (c5Mem.map fun p => (p.1, { p.2 with parent_order_id := f p }))
        c5Sl "tp" = some "T1")) :=
  ⟨by decide, related_order_lookup_spec c5Mem c5Sl "tp" "T1" (by decide)⟩

/-- C7: when the settings read raises, `is_bot_active` reads false,
    `get_bot_mode` falls back to manual, and the watcher iteration reduces
    to a sleep with no mutating action. -/
theorem settings_read_failure_fails_closed (e : String) (pollInterval : ℚ)
    (checkOrdersActions : List Action) :
    is_bot_active (.error e) = false ∧
    get_bot_mode (.error e) = "manual" ∧
    watcher_loop_iteration (.error e) pollInterval checkOrdersActions =
      [.sleepSec (pollInterval * 2)] ∧
    ∀ a ∈ watcher_loop_iteration (.error e) pollInterval checkOrdersActions,
      a.isMutating = false := by
  refine ⟨rfl, rfl, rfl, ?_⟩
  intro a ha
  simp only [watcher_loop_iteration, is_bot_active, check_bot_active,
    Bool.false_eq_true, if_false, List.mem_singleton] at ha
  rw [ha]
  rfl

/-- C7 witness: a concrete failing read with mutating candidate actions. -/
theorem settings_read_failure_fails_closed_witness :
    is_bot_active (.error "db unavailable") = false ∧
    get_bot_mode (.error "db unavailable") = "manual" ∧
    watcher_loop_iteration (.error "db unavailable") 5
        [.dbIncrementStats, .brokerPostMarketOrder "F1" 1] =
      [.sleepSec (5 * 2)] ∧
    ∀ a ∈ watcher_loop_iteration (.error "db unavailable") 5
        [.dbIncrementStats, .brokerPostMarketOrder "F1" 1],
      a.isMutating = false :=
  settings_read_failure_fails_closed "db unavailable" 5
    [.dbIncrementStats, .brokerPostMarketOrder "F1" 1]

/-- C9 amended: `save_tracked_order` is a plain insert under the UNIQUE
    constraint on `order_id`: a fresh id appends exactly one row, a
    duplicate id fails with a unique violation and changes nothing, and
    id-uniqueness of the table is preserved. -/
theorem save_tracked_order_insert_spec (db : List TrackedRow)
    (r : TrackedRow) :
    (r.order_id ∈ orderIds db →
      save_tracked_order db r = .error .uniqueViolation) ∧
    (r.order_id ∉ orderIds db →
      save_tracked_order db r = .ok (db ++ [r])) ∧
    (r.order_id ∉ orderIds db → (orderIds db).Nodup →
      (orderIds (db ++ [r])).Nodup) := by
  refine ⟨?_, ?_, ?_⟩
  · intro h
    have hany : (db.any fun q => q.order_id == r.order_id) = true := by
      simp only [orderIds, List.mem_map] at h
      obtain ⟨q, hq, he⟩ := h
      simp only [List.any_eq_true, beq_iff_eq]
      exact ⟨q, hq, he⟩
    simp [save_tracked_order, hany]
  · intro h
    have hany : (db.any fun q => q.order_id == r.order_id) = false := by
      simp only [orderIds, List.mem_map] at h
      simp only [List.any_eq_false, beq_iff_eq]
      intro q hq he
      exact h ⟨q, hq, he⟩
    simp [save_tracked_order, hany]
  · intro h hnd
    simp only [orderIds, List.map_append, List.map_cons, List.map_nil]
    simp only [orderIds] at h hnd
    simp [List.nodup_append, hnd, h]

/-- C9 witness for the amended insert semantics: the first save succeeds,
    the repeated save fails with the unique violation. -/
theorem save_tracked_order_insert_spec_witness :
    save_tracked_order [] c9RowB = .ok ([] ++ [c9RowB]) ∧
    save_tracked_order [c9RowB] c9RowB = .error .uniqueViolation :=
  ⟨(save_tracked_order_insert_spec [] c9RowB).2.1 (by decide),
   (save_tracked_order_insert_spec [c9RowB] c9RowB).1 (by decide)⟩

/-- C10: `track_order` called while `_check_bot_active` is false changes
    neither the in-memory tracked set nor the durable table and emits no
    effect. -/
theorem track_order_inactive_frame (activeCall : Except String Bool)
    (mem : List (String × TrackedOrder)) (db : List TrackedRow)
    (p : TrackOrderParams) (h : check_bot_active activeCall = false) :
    track_order activeCall mem db p = (mem, db, []) := by
  simp [track_order, h]

/-- C10 witness: a broker-accepted stop-loss is silently dropped while the
    kill switch is off. -/
theorem track_order_inactive_frame_witness :
    check_bot_active (.ok false) = false ∧
    track_order (.ok false) [("E10", c10Order)] [c10Row] c10Params =
      ([("E10", c10Order)], [c10Row], []) :=
  ⟨rfl, track_order_inactive_frame (.ok false) [("E10", c10Order)] [c10Row]
    c10Params rfl⟩

/-- C1: a run of the guard in which `start_watching "E"` is re-called while
    the first timer is alive, the first (cancelled) timer task then runs its
    `finally` pop — removing the second timer's registration by key — so the
    later `sl_placed "E"` cancels nothing and the second timer still fires
    `on_timeout`; under a single start the same calls fire nothing. -/
theorem sl_guard_fires_despite_sl_placed :
    (guardRun c1Schedule).fired = [("E", 1)] ∧
    c1Schedule.indexOf (.sl_placed "E") < c1Schedule.indexOf (.elapse "E" 1) ∧
    (guardRun [.start_watching "E", .sl_placed "E", .elapse "E" 0]).fired
      = [] := by
  decide

/-- C2: a `/buy SBER 250 10` arriving while `is_active = false` is not
    refused: the broker is queried for the last price, the validator runs, a
    pending confirmation is stored, and the behaviour is identical to the
    active-bot run — the kill switch is never consulted. -/
theorem cmd_buy_proceeds_when_inactive :
    c2Env.settings.is_active = false ∧
    (cmd_buy c2Env [] [] []).actions =
      [.brokerGetLastPrice "F1", .validatorRun, .pendingStored "cb1",
       .notify "confirm_request", .spawnConfirmTimeout "cb1"] ∧
    (cmd_buy c2Env [] [] []).pending = [("cb1", c2Pending)] ∧
    (cmd_buy c2EnvActive [] [] []).actions = (cmd_buy c2Env [] [] []).actions := by
  refine ⟨rfl, ?_, ?_, ?_⟩ <;>
    norm_num [cmd_buy, handle_free_trading_buy, count_current_positions,
      validate_buy_order, collected_errors, validate_price, validate_quantity,
      validate_daily_limits, calculate_sl_tp, pyRound, ratAbs,
      c2Env, c2EnvActive, c2Share, c2Cfg, c2Pending]

/-- C3 counterexample: at the concrete C3 input the guard cancellation
    (`sl_placed`, the unique `guardSlPlaced` effect) strictly precedes the
    unique durable save of the SL row — the opposite of the claimed
    save-before-cancel ordering. -/
theorem place_sl_tp_guard_cancel_precedes_save_cex :
    Action.dbSaveTracked "S1" ∈ c3Actions ∧
    c3Actions.indexOf (.guardSlPlaced "E1") <
      c3Actions.indexOf (.dbSaveTracked "S1") ∧
    c3Actions.count (.guardSlPlaced "E1") = 1 ∧
    c3Actions.count (.dbSaveTracked "S1") = 1 := by
  decide

/-- C4: on the recovered state that already tracks stop-loss S2 with
    `parent_order_id = "E2"`, handling E2's fill in auto mode still starts
    the guard and posts a second stop-loss — no existing-SL check is
    performed. -/
theorem on_entry_executed_places_duplicate_sl :
    (∃ p ∈ c4Mem, p.2.order_type = OrderType.stop_loss ∧
      p.2.parent_order_id = some "E2") ∧
    Action.guardStart "E2" ∈ c4Result.actions ∧
    c4Result.actions.any (fun a => a.isStopLossPost) = true := by
  decide

/-- C5 counterexample: with two pending same-ticker take-profits tracked
    (T1 for parent P1, then T2 for parent P2), the executed stop-loss of P2
    leads the lookup to T1 — whose parent differs — even though T2 matches
    the claimed parent-matching criterion. -/
theorem related_order_lookup_ignores_parent_cex :
    related_order_lookup c5Mem c5Sl "tp" = some "T1" ∧
    c5Tp1.parent_order_id ≠ c5Sl.parent_order_id ∧
    (∃ p ∈ c5Mem, p.2.order_type = OrderType.take_profit ∧
      p.2.ticker = c5Sl.ticker ∧
      p.2.parent_order_id = c5Sl.parent_order_id ∧
      p.2.is_executed = false) := by
  decide

/-- C6: on a SUCCESSFUL emergency market sell the `mark_order_executed` call
    passes the undeclared keyword `execution_reason`, so no durable
    executed-mark happens and the manual-intervention failure alert is
    emitted right after the success notification; the placed TP "T3" is only
    removed from the in-memory set, never cancelled at the broker; the
    durable table is untouched. -/
theorem emergency_close_mark_executed_raises :
    kwargsAccepted ["executed_price", "execution_reason"]
      mark_order_executed_params = false ∧
    Action.brokerPostMarketOrder "F3" 2 ∈ c6Result.actions ∧
    Action.notify "position_closed_market" ∈ c6Result.actions ∧
    Action.notify "close_failed_manual_intervention" ∈ c6Result.actions ∧
    c6Result.actions.all (fun a => !a.isDbMarkExecuted) = true ∧
    c6Result.actions.all (fun a => !a.isBrokerCancel) = true ∧
    c6Result.db = [c6Row] ∧
    c6Result.mem = [] := by
  decide

/-- C9 counterexample: saving the same tracked order twice does not succeed:
    the second `save_tracked_order` hits the UNIQUE constraint and fails —
    it is an insert, not an upsert. -/
theorem save_tracked_order_not_upsert_cex :
    save_tracked_order [] c9Row = .ok [c9Row] ∧
    save_tracked_order [c9Row] c9Row = .error .uniqueViolation := by
  constructor <;> rfl

end TBot
